import Mathlib

/-!
Verification development for the LIC Smart Advisor recommendation engine.

Shallow embedding of the core logic of
`src/vector_db/mongodb_vector_knowledge_base.py` (policy ingestion,
age-range parsing, semantic search, recommendation scoring),
`src/dashboard/sales_agent.py` (financial projections), and
`src/dashboard/recommendation_engine.py` (recommendation enhancement).

Python floats are modelled by `ℚ` (the arithmetic in the source is
decimal-scale arithmetic on small numbers), Python ints by `Int`/`Nat`,
absent dictionary keys / NaN values by `Option`, and code that can raise
an exception by `Option`-returning functions (`none` = an exception
escapes the modelled fragment).
-/

namespace LicAdvisor

/-! ### Python string primitives

`strContains hay needle` models Python's `needle in hay` substring test;
`pyLower` models `str.lower()` (ASCII case folding, which is what the
source's data uses). -/

/-- Model of list-prefix testing used by `strContains`. -/
def charsPrefixOf : List Char → List Char → Bool
  | [], _ => true
  | _ :: _, [] => false
  | a :: as, b :: bs => a == b && charsPrefixOf as bs

/-- `charsContains needle hay`: does `needle` occur contiguously in `hay`? -/
def charsContains (needle : List Char) : List Char → Bool
  | [] => charsPrefixOf needle []
  | c :: t => charsPrefixOf needle (c :: t) || charsContains needle t

/-- Model of Python's `needle in hay` substring operator. -/
def strContains (hay needle : String) : Bool :=
  charsContains needle.data hay.data

/-- Model of Python's `str.lower()`: lower-case every character (the
source's data is ASCII, where this is exactly `str.lower`). -/
def pyLower (s : String) : String := ⟨s.data.map Char.toLower⟩

/-! ### Data model

`PolicyDoc` is the slice of a stored policy document that the
query/scoring path reads: the `policy_metadata` fields
`eligibility_age_min` / `eligibility_age_max` / `data_completeness_score`
/ `category`, the top-level `features_benefits` text, and the
`similarity_score` attached by the vector-search stage (`$meta:
vectorSearchScore`).  `UserProfile` is the user-profile dictionary;
`none` models an absent key. -/

structure PolicyDoc where
  policy_id : String
  eligibility_age_min : Int
  eligibility_age_max : Int
  features_benefits : String
  data_completeness_score : ℚ
  category : String
  similarity_score : ℚ
deriving Repr, DecidableEq

structure UserProfile where
  age : Option Int
  monthly_income : Option ℚ
  dependents : Option ℚ
  life_stage : Option String
  primary_goal : Option String
  risk_comfort : Option String
deriving Repr, DecidableEq

/-- Python truthiness of `user_profile.get('age')`: `None` and `0` are
falsy, any other integer is truthy. -/
def truthyInt : Option Int → Bool
  | none => false
  | some a => a != 0

/-- Python truthiness of an optional string: `None` and `''` are falsy. -/
def truthyStr : Option String → Bool
  | none => false
  | some s => s != ""

/-! ### Recommendation scorer

`LICRAGQueryEngine._calculate_recommendation_score`: a hard age gate
(disqualification returns 0 before any weighted scoring), then
40 (age) + up-to-30 (goal keywords) + up-to-20 (risk keywords) +
`data_completeness_score * 10`. -/

/-- Goal keyword table of `_calculate_recommendation_score`. -/
def goalKeywords : String → List String
  | "wealth_creation" => ["protection", "savings", "guaranteed", "endowment"]
  | "child_education" => ["child", "education", "money back", "survival"]
  | "retirement_planning" => ["pension", "retirement", "annuity"]
  | "family_protection" => ["death benefit", "protection", "term"]
  | "tax_saving" => ["tax", "80C", "deduction"]
  | _ => []

/-- Risk indicator table of `_calculate_recommendation_score`. -/
def riskIndicators : String → List String
  | "conservative" => ["guaranteed", "traditional", "endowment"]
  | "moderate" => ["money back", "balanced", "survival"]
  | "aggressive" => ["unit linked", "market", "investment"]
  | _ => []

/-- `(matches / len(keywords)) * weight if keywords else 0`, where
`matches` counts the keywords occurring as substrings of `features`.
The exact rational `matches / len` is written `mkRat matches len` so that
it evaluates inside the kernel (`Rat.inv` is irreducible);
`keywordScore_eq` below proves it equal to the literal division form. -/
def keywordScore (kws : List String) (features : String) (weight : ℚ) : ℚ :=
  if kws.isEmpty then 0
  else mkRat ((kws.filter (fun k => strContains features k)).length : Int) kws.length * weight

/-- The non-age part of the score: goal alignment (weight 30), risk
alignment (weight 20) and the completeness bonus (weight 10).  The goal
and risk blocks only run when the profile field is present and truthy. -/
def restScore (p : PolicyDoc) (u : UserProfile) : ℚ :=
  (if truthyStr u.primary_goal then
    keywordScore (goalKeywords (u.primary_goal.getD "")) (pyLower p.features_benefits) 30
   else 0)
  + (if truthyStr u.risk_comfort then
    keywordScore (riskIndicators (u.risk_comfort.getD "")) (pyLower p.features_benefits) 20
   else 0)
  + p.data_completeness_score * 10

/-- `_calculate_recommendation_score`: if the profile age is truthy and
outside `[eligibility_age_min, eligibility_age_max]` the candidate is
disqualified (score 0); if truthy and inside, 40 points plus the rest;
if the age is absent or falsy, the whole age block is skipped. -/
def calculate_recommendation_score (p : PolicyDoc) (u : UserProfile) : ℚ :=
  if truthyInt u.age then
    if p.eligibility_age_min ≤ u.age.getD 0 ∧ u.age.getD 0 ≤ p.eligibility_age_max then
      40 + restScore p u
    else 0
  else restScore p u

/-- The hard age gate of `_calculate_recommendation_score` as a predicate:
a candidate is disqualified iff the age is truthy and out of range. -/
def disqualified (p : PolicyDoc) (u : UserProfile) : Bool :=
  truthyInt u.age &&
    !(decide (p.eligibility_age_min ≤ u.age.getD 0 ∧ u.age.getD 0 ≤ p.eligibility_age_max))

/-! ### Stable descending sort

Python's `list.sort(key=k, reverse=True)` is a stable sort placing larger
keys first.  `sortDescBy` is a stable insertion sort with the same
extensional behaviour (an earlier element precedes any later element
whose key is not strictly larger). -/

def insertDescBy {α : Type} (key : α → ℚ) (a : α) : List α → List α
  | [] => [a]
  | b :: t => if key a < key b then b :: insertDescBy key a t else a :: b :: t

def sortDescBy {α : Type} (key : α → ℚ) : List α → List α
  | [] => []
  | a :: t => insertDescBy key a (sortDescBy key t)

/-! ### Semantic search

`LICRAGQueryEngine.semantic_search`: the `$vectorSearch` stage returns
the `limit` best candidates by similarity (it explores
`numCandidates = 100` and keeps `limit`), and only then the optional
`$match` stage filters on `eligibility_age_min <= age` and
`age <= eligibility_age_max` (and category equality).  The external
vector store is modelled as exact search over the stored documents:
stable-sort by `similarity_score` descending, take `limit`. -/

/-- The `$match` conditions built from the optional age/category filters;
with no filters the stage is skipped, which is the same as filtering by
the constantly-true condition. -/
def matchesFilters (ageF : Option Int) (catF : Option String) (p : PolicyDoc) : Bool :=
  (match ageF with
   | none => true
   | some a => decide (p.eligibility_age_min ≤ a) && decide (a ≤ p.eligibility_age_max))
  && (match catF with
   | none => true
   | some c => p.category == c)

def semantic_search (ageF : Option Int) (catF : Option String) (limit : Nat)
    (store : List PolicyDoc) : List PolicyDoc :=
  ((sortDescBy (fun p => p.similarity_score) store).take limit).filter
    (matchesFilters ageF catF)

/-- `get_policy_recommendations` puts `filters['age'] = user_profile['age']`
only when the age is truthy. -/
def buildAgeFilter (u : UserProfile) : Option Int :=
  if truthyInt u.age then u.age else none

/-- `LICRAGQueryEngine.get_policy_recommendations`: semantic search with
`limit=5` and the profile-derived age filter, score every returned
candidate with `_calculate_recommendation_score`, stable-sort by the
score descending, return the top 3. -/
def get_policy_recommendations (u : UserProfile) (store : List PolicyDoc) :
    List (PolicyDoc × ℚ) :=
  (sortDescBy (fun x => x.2)
    ((semantic_search (buildAgeFilter u) none 5 store).map
      (fun p => (p, calculate_recommendation_score p u)))).take 3

/-- Concrete candidate for the C1 witness: eligibility 18-50, maximal
similarity and rule match. -/
def gateDoc : PolicyDoc :=
  { policy_id := "lic_714", eligibility_age_min := 18, eligibility_age_max := 50,
    features_benefits := "death benefit protection term insurance",
    data_completeness_score := 1, category := "Term Assurance", similarity_score := 9/10 }

/-- Concrete profile for the C1 witness: age 60, outside 18-50. -/
def gateProfile : UserProfile :=
  { age := some 60, monthly_income := some 75000, dependents := some 2,
    life_stage := some "established_family", primary_goal := some "family_protection",
    risk_comfort := some "moderate" }

/-- Concrete eligible candidate for the C4 witness. -/
def boundsDoc : PolicyDoc :=
  { policy_id := "lic_832", eligibility_age_min := 0, eligibility_age_max := 100,
    features_benefits := "child education money back survival benefits",
    data_completeness_score := 1/2, category := "Endowment", similarity_score := 3/4 }

/-- Concrete profile for the C4 witness. -/
def boundsProfile : UserProfile :=
  { age := some 32, monthly_income := some 75000, dependents := some 2,
    life_stage := some "young_family", primary_goal := some "child_education",
    risk_comfort := some "moderate" }

/-- Concrete profile with absent age for the C10 witness. -/
def noAgeProfile : UserProfile :=
  { age := none, monthly_income := some 50000, dependents := some 1,
    life_stage := some "single", primary_goal := some "tax_saving",
    risk_comfort := some "conservative" }

/-! ### Claim C2: truncation versus rule scoring

The `$vectorSearch` stage truncates to `limit = 5` candidates by
similarity BEFORE the age `$match` and before rule scoring, so a
candidate ranked sixth by similarity is dropped unscored even when its
rule score beats every retrieved candidate.  Within the retrieved set,
however, the final truncation to the top 3 really does happen only after
full scoring and sorting. -/

/-- An eligible (0-100) candidate with the given similarity and features. -/
def mkDoc (pid : String) (sim : ℚ) (feat : String) : PolicyDoc :=
  { policy_id := pid, eligibility_age_min := 0, eligibility_age_max := 100,
    features_benefits := feat, data_completeness_score := 0,
    category := "Pension", similarity_score := sim }

/-- Six stored candidates: the five high-similarity ones have no rule
match at all, the similarity-lowest one matches every goal keyword. -/
def cxStore : List PolicyDoc :=
  [mkDoc "lic_a" 6 "", mkDoc "lic_b" 5 "", mkDoc "lic_c" 4 "",
   mkDoc "lic_d" 3 "", mkDoc "lic_e" 2 "",
   mkDoc "lic_f" 1 "pension retirement annuity"]

def cxProfile : UserProfile :=
  { age := some 30, monthly_income := none, dependents := none,
    life_stage := none, primary_goal := some "retirement_planning",
    risk_comfort := none }

def cxBest : PolicyDoc := mkDoc "lic_f" 1 "pension retirement annuity"

/-- Single stored candidate used by the C2 witness. -/
def wDoc : PolicyDoc :=
  { policy_id := "lic_w", eligibility_age_min := 0, eligibility_age_max := 100,
    features_benefits := "", data_completeness_score := 0,
    category := "Unknown", similarity_score := 1 }

/-! ### Claim C3: `parse_age_range`

`LICVectorKnowledgeBase.parse_age_range`: NaN/empty input defaults to
`(0, 100)`; text containing `-` is split, the first part and the first
whitespace-separated word of the second part are parsed as integers (the
`"50 years"` format); any exception (no integer, missing word) and text
without `-` default to `(0, 100)`.  Python's `str.strip`, `str.split`
and `int` are modelled character-by-character so they evaluate in the
kernel. -/

/-- Split a character list at every character satisfying `p`, keeping
empty segments — the semantics of Python's `str.split(sep)` for a
one-character separator (with `p` the equality test). -/
def splitOnPred (p : Char → Bool) : List Char → List (List Char)
  | [] => [[]]
  | c :: t =>
    if p c then [] :: splitOnPred p t
    else
      match splitOnPred p t with
      | [] => [[c]]
      | h :: r => (c :: h) :: r

/-- Python's `str.split('-')`. -/
def splitOnChar (sep : Char) (cs : List Char) : List (List Char) :=
  splitOnPred (fun c => c == sep) cs

/-- Python's no-argument `str.split()`: split on whitespace runs and drop
empty segments. -/
def pySplitWhitespace (cs : List Char) : List (List Char) :=
  (splitOnPred Char.isWhitespace cs).filter (fun w => !w.isEmpty)

/-- Python's `str.strip()`: drop leading and trailing whitespace. -/
def pyStrip (s : String) : String :=
  ⟨((s.data.dropWhile Char.isWhitespace).reverse.dropWhile Char.isWhitespace).reverse⟩

/-- Value of a list of ASCII digits, most significant first. -/
def natOfDigits : List Char → Nat
  | [] => 0
  | c :: t => (c.toNat - 48) * 10 ^ t.length + natOfDigits t

/-- Python's `int(s)` on an already-stripped string: an optional sign
followed by at least one ASCII digit; anything else raises (`none`). -/
def pyInt? (s : String) : Option Int :=
  match s.data with
  | [] => none
  | '+' :: rest =>
    if rest.isEmpty then none
    else if rest.all Char.isDigit then some (natOfDigits rest : Int) else none
  | '-' :: rest =>
    if rest.isEmpty then none
    else if rest.all Char.isDigit then some (-(natOfDigits rest : Int)) else none
  | cs =>
    if cs.all Char.isDigit then some (natOfDigits cs : Int) else none

/-- `parse_age_range`; the input is `Option String` with `none` for a
pandas-NaN value. -/
def parse_age_range (ageStr : Option String) : Int × Int :=
  match ageStr with
  | none => (0, 100)
  | some s =>
    if s = "" then (0, 100)
    else
      match splitOnChar '-' s.data with
      | p0 :: p1 :: _ =>
        (match pyInt? (pyStrip ⟨p0⟩) with
         | none => (0, 100)
         | some mn =>
           match pySplitWhitespace p1 with
           | [] => (0, 100)
           | w :: _ =>
             match pyInt? (pyStrip ⟨w⟩) with
             | none => (0, 100)
             | some mx => (mn, mx))
      | _ => (0, 100)

/-- Decides whether `parse_age_range` takes its fully-successful path
(mirrors the structure of `parse_age_range`; every other path is a
fallback that returns the default range). -/
def ageParseOk (ageStr : Option String) : Bool :=
  match ageStr with
  | none => false
  | some s =>
    if s = "" then false
    else
      match splitOnChar '-' s.data with
      | p0 :: p1 :: _ =>
        (pyInt? (pyStrip ⟨p0⟩)).isSome &&
          (match pySplitWhitespace p1 with
           | [] => false
           | w :: _ => (pyInt? (pyStrip ⟨w⟩)).isSome)
      | _ => false

/-! ### Claim C5: policy ids in `process_and_insert_policies`

`plan_number = row['plan_number']`; when it is NaN (pandas missing, or
the literal string whose lower-casing is `"nan"`) the source substitutes
`f"unknown_{idx}"`; then `policy_id = f"lic_{plan_number}"`. -/

/-- The decimal digit characters. -/
def digitChar : Nat → Char
  | 0 => '0' | 1 => '1' | 2 => '2' | 3 => '3' | 4 => '4'
  | 5 => '5' | 6 => '6' | 7 => '7' | 8 => '8' | 9 => '9'
  | _ => '*'

/-- Python's decimal rendering of a non-negative integer (`f"{idx}"`):
most-significant digit first. -/
def natDecimal (n : Nat) : String :=
  if n = 0 then "0" else ⟨((Nat.digits 10 n).map digitChar).reverse⟩

/-- The source's missing-plan test
`pd.isna(plan_number) or str(plan_number).lower() == 'nan'`. -/
def isMissingPlan : Option String → Bool
  | none => true
  | some s => pyLower s == "nan"

/-- The plan-number token after the missing-plan fallback
`plan_number = f"unknown_{idx}"`. -/
def planToken (idx : Nat) (pn : Option String) : String :=
  match pn with
  | none => "unknown_" ++ natDecimal idx
  | some s => if pyLower s == "nan" then "unknown_" ++ natDecimal idx else s

/-- `policy_id = f"lic_{plan_number}"` for the row at positional index
`idx` with raw plan-number cell `pn`. -/
def policy_id (idx : Nat) (pn : Option String) : String :=
  "lic_" ++ planToken idx pn

/-! ### Financial projections of `_prepare_sales_context` (sales_agent.py)

`monthly_income`, `age`, `dependents` are the local values after the
`.get` defaults; the three premium figures are derived from the single
annual base and are reported after `round(x, 0)`. -/

/-- `premium_percentage = 0.10 + dependents*0.02 + max(0, age-30)*0.001`,
then `min(premium_percentage, 0.15)`. -/
def premium_percentage (age dependents : ℚ) : ℚ :=
  min (1/10 + dependents * (2/100) + max 0 (age - 30) * (1/1000)) (15/100)

/-- `suggested_annual_premium = monthly_income * 12 * premium_percentage`. -/
def suggested_annual_premium (monthly_income age dependents : ℚ) : ℚ :=
  monthly_income * 12 * premium_percentage age dependents

/-- `suggested_monthly_premium = suggested_annual_premium / 12`. -/
def suggested_monthly_premium (monthly_income age dependents : ℚ) : ℚ :=
  suggested_annual_premium monthly_income age dependents / 12

/-- `suggested_daily_premium = suggested_annual_premium / 365`. -/
def suggested_daily_premium (monthly_income age dependents : ℚ) : ℚ :=
  suggested_annual_premium monthly_income age dependents / 365

/-- Python's `round(x, 0)`: round half to even. -/
def pyRound (q : ℚ) : ℤ :=
  if q - ⌊q⌋ < 1/2 then ⌊q⌋
  else if 1/2 < q - ⌊q⌋ then ⌊q⌋ + 1
  else if ⌊q⌋ % 2 = 0 then ⌊q⌋ else ⌊q⌋ + 1

/-! ### Recommendation enhancement (`recommendation_engine.py`)

`_enhance_recommendations` runs inside `get_personalized_recommendations`'s
`try/except`: an exception raised while enhancing (modelled by `none`)
aborts the whole result and surfaces as the failure state, not as a
usable recommendation list. -/

structure EnhancedData where
  estimated_monthly_premium : ℚ
  affordability_score : String
  premium_to_income_ratio : ℚ
  personalized_benefits : List String
  risk_alignment : ℚ
  goal_alignment : ℚ
deriving Repr, DecidableEq

/-- `_estimate_premium`: 15% of annual income, scaled by an age factor
and a category factor (term cheaper, ulip/investment costlier), reported
monthly. -/
def estimate_premium (monthly_income age : ℚ) (category : String) : ℚ :=
  let base_premium_annual := monthly_income * 12 * (15/100)
  let age_factor := 1 + (age - 30) * (1/100)
  let category_factor : ℚ :=
    if strContains (pyLower category) "term" then 3/10
    else if strContains (pyLower category) "ulip" || strContains (pyLower category) "investment"
      then 12/10
    else 1
  base_premium_annual * age_factor * category_factor / 12

/-- `_calculate_affordability_score`: `ratio = premium / monthly_income
* 100` — a zero income raises `ZeroDivisionError` (modelled `none`);
otherwise the step-function bucket. -/
def calculate_affordability_score (premium monthly_income : ℚ) : Option String :=
  if monthly_income = 0 then none
  else
    some (if premium / monthly_income * 100 ≤ 10 then "Excellent"
      else if premium / monthly_income * 100 ≤ 15 then "Good"
      else if premium / monthly_income * 100 ≤ 20 then "Moderate"
      else "High")

/-- `_get_personalized_benefits`. -/
def get_personalized_benefits (u : UserProfile) : List String :=
  (if u.primary_goal.getD "" = "child_education" then
    ["Perfect for securing your child's educational future"]
   else if u.primary_goal.getD "" = "retirement_planning" then
    ["Builds substantial retirement corpus with guaranteed returns"]
   else if u.primary_goal.getD "" = "wealth_creation" then
    ["High growth potential with market-linked returns"]
   else [])
  ++ (if strContains (pyLower (u.life_stage.getD "")) "young" then
    ["Flexible premium payment options for growing careers"]
   else if strContains (pyLower (u.life_stage.getD "")) "family" then
    ["Comprehensive family protection with multiple benefits"]
   else [])
  ++ (if u.risk_comfort.getD "" = "conservative" then
    ["Guaranteed returns with capital protection"]
   else if u.risk_comfort.getD "" = "aggressive" then
    ["High growth potential with equity exposure"]
   else [])

/-- One iteration of the `_enhance_recommendations` loop: estimate the
premium, compute the affordability bucket (this raises on zero income),
then the premium-to-income ratio `(premium*12)/(monthly_income*12)*100`
(this would also raise on zero income), the benefits and the two
placeholder alignment scores (85.0 and 90.0). -/
def enhanceOne (monthly_income age : ℚ) (u : UserProfile) (rec : PolicyDoc) :
    Option (PolicyDoc × EnhancedData) :=
  let premium := estimate_premium monthly_income age rec.category
  match calculate_affordability_score premium monthly_income with
  | none => none
  | some aff =>
    if monthly_income * 12 = 0 then none
    else
      some (rec,
        { estimated_monthly_premium := premium,
          affordability_score := aff,
          premium_to_income_ratio := premium * 12 / (monthly_income * 12) * 100,
          personalized_benefits := get_personalized_benefits u,
          risk_alignment := 85,
          goal_alignment := 90 })

/-- The `_enhance_recommendations` loop over the recommendation list; an
exception in any iteration propagates (`none`). -/
def enhanceLoop (monthly_income age : ℚ) (u : UserProfile) :
    List PolicyDoc → Option (List (PolicyDoc × EnhancedData))
  | [] => some []
  | r :: t =>
    match enhanceOne monthly_income age u r with
    | none => none
    | some e =>
      match enhanceLoop monthly_income age u t with
      | none => none
      | some es => some (e :: es)

/-- `_enhance_recommendations`: read `monthly_income` (default 50000) and
`age` (default 35) from the profile, then enhance each recommendation. -/
def enhance_recommendations (u : UserProfile) (recs : List PolicyDoc) :
    Option (List (PolicyDoc × EnhancedData)) :=
  enhanceLoop (u.monthly_income.getD 50000) ((u.age.getD 35 : Int) : ℚ) u recs

/-! ### Claim C9: inconsistent financial fields in enhancement -/

/-- A profile whose `monthly_income` field is present and zero. -/
def zeroIncomeProfile : UserProfile :=
  { age := some 32, monthly_income := some 0, dependents := some 0,
    life_stage := some "single", primary_goal := some "wealth_creation",
    risk_comfort := some "moderate" }

/-- A profile whose `monthly_income` field is present and negative. -/
def negIncomeProfile : UserProfile :=
  { age := some 32, monthly_income := some (-1000), dependents := some 0,
    life_stage := some "single", primary_goal := some "wealth_creation",
    risk_comfort := some "moderate" }

/-- `keywordScore` computes the source's `matches / len(keywords) * weight`. -/
theorem keywordScore_eq (kws : List String) (f : String) (w : ℚ) :
    keywordScore kws f w =
      if kws.isEmpty then 0
      else ((kws.filter (fun k => strContains f k)).length : ℚ) / (kws.length : ℚ) * w := by
  unfold keywordScore
  split
  · rfl
  · rw [Rat.mkRat_eq_divInt, Rat.divInt_eq_div]
    push_cast
    ring

/-! ### Lemmas about the stable descending sort -/

theorem mem_insertDescBy {α : Type} (key : α → ℚ) (a x : α) (l : List α) :
    x ∈ insertDescBy key a l ↔ x = a ∨ x ∈ l := by
  induction l with
  | nil => simp [insertDescBy]
  | cons b t ih =>
    simp only [insertDescBy]
    split
    · simp only [List.mem_cons, ih]
      tauto
    · simp only [List.mem_cons]

theorem mem_sortDescBy {α : Type} (key : α → ℚ) (x : α) (l : List α) :
    x ∈ sortDescBy key l ↔ x ∈ l := by
  induction l with
  | nil => simp [sortDescBy]
  | cons a t ih => simp [sortDescBy, mem_insertDescBy, ih]

theorem countP_insertDescBy {α : Type} (key : α → ℚ) (p : α → Bool) (a : α) (l : List α) :
    (insertDescBy key a l).countP p = l.countP p + (if p a then 1 else 0) := by
  induction l with
  | nil => simp [insertDescBy, List.countP_cons]
  | cons b t ih =>
    simp only [insertDescBy]
    split <;> (simp only [List.countP_cons, ih]; try omega)

theorem countP_sortDescBy {α : Type} (key : α → ℚ) (p : α → Bool) (l : List α) :
    (sortDescBy key l).countP p = l.countP p := by
  induction l with
  | nil => rfl
  | cons a t ih => simp [sortDescBy, countP_insertDescBy, ih, List.countP_cons]

/-- The output of the sort is descending: every element is ≥ (in key)
every element after it. -/
theorem pairwise_insertDescBy {α : Type} (key : α → ℚ) (a : α) (l : List α)
    (h : l.Pairwise (fun x y => key y ≤ key x)) :
    (insertDescBy key a l).Pairwise (fun x y => key y ≤ key x) := by
  induction l with
  | nil => simp [insertDescBy]
  | cons b t ih =>
    rcases List.pairwise_cons.mp h with ⟨hb, ht⟩
    simp only [insertDescBy]
    split
    · refine List.pairwise_cons.mpr ⟨?_, ih ht⟩
      intro y hy
      rcases (mem_insertDescBy key a y t).mp hy with hya | hyt
      · subst hya
        linarith
      · exact hb y hyt
    · refine List.pairwise_cons.mpr ⟨?_, h⟩
      intro y hy
      rcases List.mem_cons.mp hy with hyb | hyt
      · subst hyb
        linarith
      · exact le_trans (hb y hyt) (by linarith)

theorem pairwise_sortDescBy {α : Type} (key : α → ℚ) (l : List α) :
    (sortDescBy key l).Pairwise (fun x y => key y ≤ key x) := by
  induction l with
  | nil => simp [sortDescBy]
  | cons a t ih => exact pairwise_insertDescBy key a _ ih

/-- In a descending list, an element that at most `n` elements tie with
or beat (itself included) lies among the first `n`. -/
theorem mem_take_of_sorted {α : Type} (key : α → ℚ) (x : α) :
    ∀ (l : List α) (n : Nat), l.Pairwise (fun a b => key b ≤ key a) → x ∈ l →
      l.countP (fun y => decide (key x ≤ key y)) ≤ n → x ∈ l.take n := by
  intro l
  induction l with
  | nil => intro n _ hx _; cases hx
  | cons b t ih =>
    intro n hs hx hc
    rcases List.pairwise_cons.mp hs with ⟨hb, ht⟩
    have hqb : key x ≤ key b := by
      rcases List.mem_cons.mp hx with hxb | hxt
      · subst hxb; exact le_refl _
      · exact hb x hxt
    rw [List.countP_cons] at hc
    rw [if_pos (by simp [hqb])] at hc
    obtain ⟨m, rfl⟩ : ∃ m, n = m + 1 := ⟨n - 1, by omega⟩
    rcases List.mem_cons.mp hx with hxb | hxt
    · subst hxb
      simp [List.take_succ_cons]
    · have : x ∈ t.take m := ih m ht hxt (by omega)
      simp [List.take_succ_cons, this]

/-! ### Bounds for the scorer components -/

theorem keywordScore_bounds (kws : List String) (f : String) (w : ℚ) (hw : 0 ≤ w) :
    0 ≤ keywordScore kws f w ∧ keywordScore kws f w ≤ w := by
  rw [keywordScore_eq]
  split
  · exact ⟨le_refl 0, hw⟩
  · rename_i hne
    have hlen : 0 < kws.length := by
      cases kws with
      | nil => simp at hne
      | cons a t => simp
    have hlenq : (0 : ℚ) < (kws.length : ℚ) := by exact_mod_cast hlen
    have hle : ((kws.filter (fun k => strContains f k)).length : ℚ) ≤ (kws.length : ℚ) := by
      exact_mod_cast List.length_filter_le _ _
    have hfrac0 : (0 : ℚ) ≤ ((kws.filter (fun k => strContains f k)).length : ℚ) / (kws.length : ℚ) :=
      div_nonneg (by positivity) (le_of_lt hlenq)
    have hfrac1 : ((kws.filter (fun k => strContains f k)).length : ℚ) / (kws.length : ℚ) ≤ 1 :=
      (div_le_one hlenq).mpr hle
    constructor
    · exact mul_nonneg hfrac0 hw
    · calc ((kws.filter (fun k => strContains f k)).length : ℚ) / (kws.length : ℚ) * w
          ≤ 1 * w := by nlinarith
        _ = w := one_mul w

theorem restScore_bounds (p : PolicyDoc) (u : UserProfile)
    (h0 : 0 ≤ p.data_completeness_score) (h1 : p.data_completeness_score ≤ 1) :
    0 ≤ restScore p u ∧ restScore p u ≤ 60 := by
  unfold restScore
  have hg := keywordScore_bounds (goalKeywords (u.primary_goal.getD ""))
    (pyLower p.features_benefits) 30 (by norm_num)
  have hr := keywordScore_bounds (riskIndicators (u.risk_comfort.getD ""))
    (pyLower p.features_benefits) 20 (by norm_num)
  constructor
  · split <;> split <;> nlinarith [hg.1, hg.2, hr.1, hr.2]
  · split <;> split <;> nlinarith [hg.1, hg.2, hr.1, hr.2]

/-- Every policy in the final recommendation list comes from the
semantic-search output (scoring, sorting and truncation add or drop no
documents). -/
theorem mem_fst_recs_mem_search (u : UserProfile) (store : List PolicyDoc) (p : PolicyDoc)
    (hmem : p ∈ (get_policy_recommendations u store).map Prod.fst) :
    p ∈ semantic_search (buildAgeFilter u) none 5 store := by
  simp only [get_policy_recommendations] at hmem
  rcases List.mem_map.mp hmem with ⟨x, hx, hfx⟩
  have hx1 := List.take_subset _ _ hx
  rw [mem_sortDescBy] at hx1
  rcases List.mem_map.mp hx1 with ⟨q, hq, hqx⟩
  rw [← hfx, ← hqx]
  exact hq

/-! ### Claim C1: the age gate is absolute -/

/-- C1: for every candidate policy and every profile whose age is known
(present and truthy), if the age lies strictly outside
`[eligibility_age_min, eligibility_age_max]` then
`_calculate_recommendation_score` returns 0 and the candidate is absent
from the list returned by `get_policy_recommendations`, regardless of
its similarity score. -/
theorem age_gate_absolute (u : UserProfile) (store : List PolicyDoc) (p : PolicyDoc)
    (a : Int) (hage : u.age = some a) (ha0 : a ≠ 0)
    (hout : a < p.eligibility_age_min ∨ p.eligibility_age_max < a) :
    calculate_recommendation_score p u = 0 ∧
      p ∉ (get_policy_recommendations u store).map Prod.fst := by
  have htr : truthyInt u.age = true := by simp [truthyInt, hage, ha0]
  have hgetD : u.age.getD 0 = a := by simp [hage]
  have hcond : ¬(p.eligibility_age_min ≤ u.age.getD 0 ∧ u.age.getD 0 ≤ p.eligibility_age_max) := by
    rw [hgetD]
    rcases hout with h | h
    · intro hh; linarith [hh.1]
    · intro hh; linarith [hh.2]
  constructor
  · simp only [calculate_recommendation_score, htr, if_true]
    exact if_neg hcond
  · intro hmem
    have hq := mem_fst_recs_mem_search u store p hmem
    have hbf : buildAgeFilter u = some a := by
      unfold buildAgeFilter
      rw [htr]
      simp [hage]
    simp only [semantic_search, hbf] at hq
    have hfilt := (List.mem_filter.mp hq).2
    simp only [matchesFilters, Bool.and_true, Bool.and_eq_true, decide_eq_true_eq] at hfilt
    rcases hout with h | h
    · linarith [hfilt.1]
    · linarith [hfilt.2]

/-- Witness for C1 at the spec's own example scenario (18-50 policy,
age-60 profile). -/
theorem age_gate_absolute_w :
    calculate_recommendation_score gateDoc gateProfile = 0 ∧
      gateDoc ∉ (get_policy_recommendations gateProfile [gateDoc]).map Prod.fst :=
  age_gate_absolute gateProfile [gateDoc] gateDoc 60 rfl (by decide) (Or.inr (by decide))

/-! ### Claim C4: score bounds for non-disqualified candidates -/

/-- C4: for every candidate not disqualified by the age gate and every
profile, if `data_completeness_score ∈ [0,1]` then the recommendation
score lies in `[0, 100]`. -/
theorem recommendation_score_bounds (p : PolicyDoc) (u : UserProfile)
    (hnd : disqualified p u = false)
    (h0 : 0 ≤ p.data_completeness_score) (h1 : p.data_completeness_score ≤ 1) :
    0 ≤ calculate_recommendation_score p u ∧ calculate_recommendation_score p u ≤ 100 := by
  have hrest := restScore_bounds p u h0 h1
  unfold calculate_recommendation_score
  by_cases ht : truthyInt u.age = true
  · have hcond : p.eligibility_age_min ≤ u.age.getD 0 ∧ u.age.getD 0 ≤ p.eligibility_age_max := by
      by_contra hcc
      simp [disqualified, ht, hcc] at hnd
    rw [if_pos ht, if_pos hcond]
    constructor <;> linarith [hrest.1, hrest.2]
  · have ht' : truthyInt u.age = false := by simpa using ht
    rw [ht']
    simp only [Bool.false_eq_true, if_false]
    constructor <;> linarith [hrest.1, hrest.2]

/-- Witness for C4 at a concrete eligible candidate and profile. -/
theorem recommendation_score_bounds_w :
    0 ≤ calculate_recommendation_score boundsDoc boundsProfile ∧
      calculate_recommendation_score boundsDoc boundsProfile ≤ 100 :=
  recommendation_score_bounds boundsDoc boundsProfile (by decide)
    (by norm_num [boundsDoc]) (by norm_num [boundsDoc])

/-! ### Claim C10: falsy age skips the whole age block -/

/-- C10: when the profile age is absent or falsy (0), the gate never
disqualifies and the 40-point age contribution is never awarded: the
score equals the non-age part, hence is at most 60 when
`data_completeness_score ∈ [0,1]`. -/
theorem falsy_age_score_cap (p : PolicyDoc) (u : UserProfile)
    (hage : u.age = none ∨ u.age = some 0)
    (h0 : 0 ≤ p.data_completeness_score) (h1 : p.data_completeness_score ≤ 1) :
    calculate_recommendation_score p u = restScore p u ∧ calculate_recommendation_score p u ≤ 60 := by
  have ht : truthyInt u.age = false := by
    rcases hage with h | h <;> simp [truthyInt, h]
  have he : calculate_recommendation_score p u = restScore p u := by
    unfold calculate_recommendation_score
    rw [ht]
    simp
  exact ⟨he, by rw [he]; exact (restScore_bounds p u h0 h1).2⟩

/-- Witness for C10 at a concrete profile with absent age. -/
theorem falsy_age_score_cap_w :
    calculate_recommendation_score boundsDoc noAgeProfile = restScore boundsDoc noAgeProfile ∧
      calculate_recommendation_score boundsDoc noAgeProfile ≤ 60 :=
  falsy_age_score_cap boundsDoc noAgeProfile (Or.inl rfl)
    (by norm_num [boundsDoc]) (by norm_num [boundsDoc])

/-! ### Claim C8: zero candidates yield an empty list, not an error -/

/-- C8: if the vector-search stage returns zero candidates,
`get_policy_recommendations` returns the empty list (the function is
total in the embedding: the source's `try/except` guarantees no
exception escapes). -/
theorem empty_search_yields_empty (u : UserProfile) (store : List PolicyDoc)
    (h : semantic_search (buildAgeFilter u) none 5 store = []) :
    get_policy_recommendations u store = [] := by
  simp [get_policy_recommendations, h, sortDescBy]

/-- Witness for C8: querying an empty store returns the empty list. -/
theorem empty_search_yields_empty_w :
    get_policy_recommendations noAgeProfile [] = [] :=
  empty_search_yields_empty noAgeProfile [] rfl

/-- A featureless candidate scores exactly 40 for `cxProfile` (age points
only; no goal keyword of `retirement_planning` occurs in the empty
features text). -/
theorem score_cx_empty (pid : String) (sim : ℚ) :
    calculate_recommendation_score (mkDoc pid sim "") cxProfile = 40 := by
  have hgk : goalKeywords "retirement_planning" = ["pension", "retirement", "annuity"] := rfl
  have hfil : (["pension", "retirement", "annuity"] : List String).filter
      (fun k => strContains (pyLower "") k) = [] := by decide
  norm_num [calculate_recommendation_score, truthyInt, truthyStr, restScore, keywordScore_eq,
    cxProfile, mkDoc, Option.getD_some, hgk, hfil]

/-- `cxBest` scores 70 for `cxProfile`: all three goal keywords occur in
its features text. -/
theorem score_cx_best :
    calculate_recommendation_score cxBest cxProfile = 70 := by
  have hgk : goalKeywords "retirement_planning" = ["pension", "retirement", "annuity"] := rfl
  have hfil : (["pension", "retirement", "annuity"] : List String).filter
      (fun k => strContains (pyLower "pension retirement annuity") k) =
      ["pension", "retirement", "annuity"] := by decide
  norm_num [calculate_recommendation_score, truthyInt, truthyStr, restScore, keywordScore_eq,
    cxProfile, cxBest, mkDoc, Option.getD_some, hgk, hfil]
  rw [if_neg (by decide : ¬("retirement_planning" : String) = "")]
  norm_num

/-- Counterexample to C2 as stated: `cxBest` is stored, age-eligible, and
strictly out-scores every other stored candidate under the rules, yet it
is dropped by the similarity-based `limit = 5` cutoff before rule scoring
(it is not among the retrieved candidates) and therefore cannot surface
in the final top 3. -/
theorem truncation_before_scoring_cx :
    cxBest ∈ cxStore ∧
      disqualified cxBest cxProfile = false ∧
      (∀ q ∈ cxStore, q ≠ cxBest →
        calculate_recommendation_score q cxProfile < calculate_recommendation_score cxBest cxProfile) ∧
      cxBest ∉ semantic_search (buildAgeFilter cxProfile) none 5 cxStore ∧
      cxBest ∉ (get_policy_recommendations cxProfile cxStore).map Prod.fst := by
  have h4 : cxBest ∉ semantic_search (buildAgeFilter cxProfile) none 5 cxStore := by decide
  refine ⟨by decide, by decide, ?_, h4, ?_⟩
  · intro q hq hne
    rw [score_cx_best]
    rcases (by simpa only [cxStore, List.mem_cons, List.not_mem_nil, or_false] using hq :
        q = mkDoc "lic_a" 6 "" ∨ q = mkDoc "lic_b" 5 "" ∨ q = mkDoc "lic_c" 4 "" ∨
        q = mkDoc "lic_d" 3 "" ∨ q = mkDoc "lic_e" 2 "" ∨
        q = mkDoc "lic_f" 1 "pension retirement annuity") with
      rfl | rfl | rfl | rfl | rfl | rfl
    · rw [score_cx_empty]; norm_num
    · rw [score_cx_empty]; norm_num
    · rw [score_cx_empty]; norm_num
    · rw [score_cx_empty]; norm_num
    · rw [score_cx_empty]; norm_num
    · exact absurd rfl hne
  · intro h
    exact h4 (mem_fst_recs_mem_search _ _ _ h)

/-- C2 amended: the truncation to the final top 3 happens only after
every candidate RETURNED BY THE VECTOR-SEARCH STAGE (the top `limit = 5`
by similarity, post-filtered by age) has been rule-scored and sorted:
any retrieved candidate that at most three retrieved candidates (itself
included) tie with or beat on rule score appears in the final list,
regardless of its similarity rank within the retrieved set.  Candidates
beyond the similarity cutoff are dropped before scoring (see the
counterexample). -/
theorem truncation_after_scoring_within_retrieved (u : UserProfile)
    (store : List PolicyDoc) (x : PolicyDoc × ℚ)
    (hx : x ∈ (semantic_search (buildAgeFilter u) none 5 store).map
      (fun p => (p, calculate_recommendation_score p u)))
    (hc : ((semantic_search (buildAgeFilter u) none 5 store).map
      (fun p => (p, calculate_recommendation_score p u))).countP
        (fun y => decide (x.2 ≤ y.2)) ≤ 3) :
    x ∈ get_policy_recommendations u store := by
  unfold get_policy_recommendations
  refine mem_take_of_sorted (fun y => y.2) x _ 3 (pairwise_sortDescBy _ _) ?_ ?_
  · exact (mem_sortDescBy _ _ _).mpr hx
  · rw [countP_sortDescBy]
    exact hc

/-- Counterexample to C3 as stated: `"50-18 years"` parses successfully
to the pair `(50, 18)`, which violates the claimed invariant
`min ≤ max`. -/
theorem parse_age_range_cx :
    parse_age_range (some "50-18 years") = (50, 18) ∧
      ¬((parse_age_range (some "50-18 years")).1 ≤ (parse_age_range (some "50-18 years")).2) := by
  decide

/-- C3 amended: `parse_age_range` always returns a pair of integers and
never raises (it is total); on every non-successful path — missing/NaN
input, empty string, missing `-` separator, non-numeric parts, missing
word after the `-` — it returns exactly the default `(0, 100)`.  On a
successful parse it returns the two integers in text order, which need
not satisfy `min ≤ max` (see the counterexample). -/
theorem parse_age_range_default (a : Option String) (h : ageParseOk a = false) :
    parse_age_range a = (0, 100) := by
  cases a with
  | none => rfl
  | some s =>
    simp only [ageParseOk] at h
    simp only [parse_age_range]
    by_cases hs : s = ""
    · simp [hs]
    · rw [if_neg hs] at h ⊢
      rcases hpl : splitOnChar '-' s.data with _ | ⟨p0, pl⟩
      · simp only [hpl]
      · rcases pl with _ | ⟨p1, rest⟩
        · simp only [hpl]
        · simp only [hpl] at h ⊢
          rcases h0 : pyInt? (pyStrip ⟨p0⟩) with _ | mn
          · simp only [h0]
          · simp only [h0, Option.isSome_some, Bool.true_and] at h
            rcases hw : pySplitWhitespace p1 with _ | ⟨w, ws⟩
            · simp only [h0, hw]
            · simp only [hw] at h
              rcases h1 : pyInt? (pyStrip ⟨w⟩) with _ | mx
              · simp only [h0, hw, h1]
              · rw [h1] at h
                simp at h

/-- Witness for the amended C3 at the spec's own example input `"N/A"`. -/
theorem parse_age_range_default_w :
    parse_age_range (some "N/A") = (0, 100) :=
  parse_age_range_default (some "N/A") (by decide)

theorem digitChar_inj : ∀ d, d < 10 → ∀ e, e < 10 → digitChar d = digitChar e → d = e := by
  decide

theorem map_digitChar_inj : ∀ (l1 l2 : List Nat), (∀ x ∈ l1, x < 10) → (∀ x ∈ l2, x < 10) →
    l1.map digitChar = l2.map digitChar → l1 = l2 := by
  intro l1
  induction l1 with
  | nil =>
    intro l2 _ _ h
    cases l2 with
    | nil => rfl
    | cons b u => simp at h
  | cons a t ih =>
    intro l2 h1 h2 h
    cases l2 with
    | nil => simp at h
    | cons b u =>
      simp only [List.map_cons, List.cons.injEq] at h
      have ha : a = b := digitChar_inj a (h1 a (by simp)) b (h2 b (by simp)) h.1
      have ht := ih u (fun x hx => h1 x (by simp [hx])) (fun x hx => h2 x (by simp [hx])) h.2
      rw [ha, ht]

/-- Decimal rendering is injective. -/
theorem natDecimal_inj (m n : Nat) (h : natDecimal m = natDecimal n) : m = n := by
  have hdig : ∀ k : Nat, k ≠ 0 → ((Nat.digits 10 k).map digitChar).reverse = ['0'] → False := by
    intro k hk hrev
    have hmap : (Nat.digits 10 k).map digitChar = ['0'] := by
      have := congrArg List.reverse hrev
      simpa using this
    rcases hd : Nat.digits 10 k with _ | ⟨d, ds⟩
    · rw [hd] at hmap
      simp at hmap
    · rw [hd] at hmap
      simp only [List.map_cons, List.cons.injEq, List.map_eq_nil_iff] at hmap
      have hd10 : d < 10 := Nat.digits_lt_base (by norm_num) (by rw [hd]; simp)
      have hd0 : d = 0 := digitChar_inj d hd10 0 (by norm_num) hmap.1
      have hzero : k = 0 := by
        have := Nat.ofDigits_digits 10 k
        rw [hd, hd0, hmap.2] at this
        simpa [Nat.ofDigits] using this.symm
      exact hk hzero
  unfold natDecimal at h
  by_cases hm : m = 0 <;> by_cases hn : n = 0
  · rw [hm, hn]
  · rw [if_pos hm, if_neg hn] at h
    exact absurd (congrArg String.data h.symm) (by intro hc; exact hdig n hn (by simpa using hc))
  · rw [if_neg hm, if_pos hn] at h
    exact absurd (congrArg String.data h) (by intro hc; exact hdig m hm (by simpa using hc))
  · rw [if_neg hm, if_neg hn] at h
    have hdata : ((Nat.digits 10 m).map digitChar).reverse =
        ((Nat.digits 10 n).map digitChar).reverse := congrArg String.data h
    have hmap := List.reverse_injective hdata
    have hdigits : Nat.digits 10 m = Nat.digits 10 n :=
      map_digitChar_inj _ _
        (fun x hx => Nat.digits_lt_base (by norm_num) hx)
        (fun x hx => Nat.digits_lt_base (by norm_num) hx) hmap
    have := congrArg (Nat.ofDigits 10) hdigits
    rwa [Nat.ofDigits_digits, Nat.ofDigits_digits] at this

/-- Counterexample to C5 as stated: two distinct rows carrying the same
non-missing plan number `"868"` produce the same policy id `"lic_868"` —
only blanks are disambiguated, not collisions. -/
theorem duplicate_plan_ids_cx :
    (0 : Nat) ≠ 1 ∧ policy_id 0 (some "868") = policy_id 1 (some "868") := by
  exact ⟨by decide, rfl⟩

/-- C5 amended: every row whose plan-number cell is missing/NaN receives
the per-row fallback token `unknown_<row index>`, and any two such rows
receive distinct policy ids; but two rows carrying the same non-missing
plan number produce the same id (see the counterexample). -/
theorem missing_plan_ids_distinct (i j : Nat) (pni pnj : Option String)
    (hij : i ≠ j) (hi : isMissingPlan pni = true) (hj : isMissingPlan pnj = true) :
    policy_id i pni ≠ policy_id j pnj := by
  have htok : ∀ (k : Nat) (pn : Option String), isMissingPlan pn = true →
      planToken k pn = "unknown_" ++ natDecimal k := by
    intro k pn hpn
    cases pn with
    | none => rfl
    | some s =>
      simp only [isMissingPlan] at hpn
      simp [planToken, hpn]
  intro h
  rw [policy_id, policy_id, htok i pni hi, htok j pnj hj] at h
  have hdata := congrArg String.data h
  simp only [String.data_append] at hdata
  have hij2 : (natDecimal i).data = (natDecimal j).data :=
    List.append_cancel_left (List.append_cancel_left hdata)
  have hstr : natDecimal i = natDecimal j := by
    cases hni : natDecimal i
    cases hnj : natDecimal j
    rw [hni, hnj] at hij2
    exact congrArg String.mk hij2
  exact hij (natDecimal_inj i j hstr)

/-- Witness for the amended C5: rows 0 and 1, both with missing plan
numbers, get the distinct ids `lic_unknown_0` and `lic_unknown_1`. -/
theorem missing_plan_ids_distinct_w :
    policy_id 0 none ≠ policy_id 1 none :=
  missing_plan_ids_distinct 0 1 none none (by decide) rfl rfl

/-- The one-candidate store is retrieved unchanged. -/
theorem semSearch_wDoc :
    semantic_search (buildAgeFilter noAgeProfile) none 5 [wDoc] = [wDoc] := by
  decide

/-- Witness for the amended C2 at a concrete one-candidate store. -/
theorem truncation_after_scoring_w :
    (wDoc, calculate_recommendation_score wDoc noAgeProfile)
      ∈ get_policy_recommendations noAgeProfile [wDoc] :=
  truncation_after_scoring_within_retrieved noAgeProfile [wDoc]
    (wDoc, calculate_recommendation_score wDoc noAgeProfile)
    (by rw [semSearch_wDoc]; simp)
    (by rw [semSearch_wDoc]; simp [List.countP_cons])

/-- Rounding moves a value by at most 1/2. -/
theorem pyRound_close (q : ℚ) : |(pyRound q : ℚ) - q| ≤ 1/2 := by
  have h0 : (⌊q⌋ : ℚ) ≤ q := Int.floor_le q
  have h1 : q < ⌊q⌋ + 1 := Int.lt_floor_add_one q
  unfold pyRound
  split
  · rename_i hlt
    rw [abs_le]
    constructor <;> linarith
  · rename_i hge
    split
    · rename_i hgt
      rw [abs_le]
      push_cast
      constructor <;> linarith
    · rename_i hle
      have heq : q - ⌊q⌋ = 1/2 := by linarith [not_lt.mp hge, not_lt.mp hle]
      split
      · rw [abs_le]
        constructor <;> linarith
      · rw [abs_le]
        push_cast
        constructor <;> linarith

/-! ### Claim C7: the base percentage is clamped to [10%, 15%] -/

/-- C7: for `dependents ≥ 0` and any age, the premium percentage lies in
`[0.10, 0.15]`; in particular it never exceeds 0.15 however large
`dependents` or `age` are. -/
theorem base_percentage_bounds (age dependents : ℚ) (h : 0 ≤ dependents) :
    1/10 ≤ premium_percentage age dependents ∧ premium_percentage age dependents ≤ 15/100 := by
  unfold premium_percentage
  constructor
  · refine le_min ?_ (by norm_num)
    have h2 : (0:ℚ) ≤ max 0 (age - 30) := le_max_left 0 (age - 30)
    nlinarith
  · exact min_le_right _ _

/-- Witness for C7 at extreme inputs (age 100, 20 dependents). -/
theorem base_percentage_bounds_w :
    1/10 ≤ premium_percentage 100 20 ∧ premium_percentage 100 20 ≤ 15/100 :=
  base_percentage_bounds 100 20 (by norm_num)

/-! ### Claim C6: premium arithmetic consistency -/

/-- Counterexample to C6 as stated: at `monthly_income = 50000`,
`age = 35`, `dependents = 0` the REPORTED (rounded) figures are not
consistent to within a small epsilon: `round(annual)/365` differs from
`round(daily)` by `29/73 ≈ 0.397`, so in particular not by less than
1/4. -/
theorem premium_rounding_cx :
    ¬(|(pyRound (suggested_annual_premium 50000 35 0) : ℚ) / 365 -
        (pyRound (suggested_daily_premium 50000 35 0) : ℚ)| < 1/4) := by
  have hA : suggested_annual_premium 50000 35 0 = 63000 := by
    norm_num [suggested_annual_premium, premium_percentage]
  have hD : suggested_daily_premium 50000 35 0 = 12600/73 := by
    rw [suggested_daily_premium, hA]
    norm_num
  have hflA : ⌊(63000 : ℚ)⌋ = 63000 := by
    rw [Int.floor_eq_iff]
    norm_num
  have hrA : pyRound 63000 = 63000 := by
    unfold pyRound
    rw [hflA]
    norm_num
  have hflD : ⌊(12600/73 : ℚ)⌋ = 172 := by
    rw [Int.floor_eq_iff]
    norm_num
  have hrD : pyRound (12600/73) = 173 := by
    unfold pyRound
    rw [hflD]
    norm_num
  rw [hA, hD, hrA, hrD]
  have hval : ((63000 : ℤ) : ℚ) / 365 - ((173 : ℤ) : ℚ) = -(29/73) := by
    push_cast
    norm_num
  rw [hval, abs_neg, abs_of_nonneg (by norm_num)]
  norm_num

/-- C6 amended: the three premium figures are derived from the single
annual base and the UNROUNDED values are exactly consistent
(`monthly*12 = annual` and `daily = annual/365`, difference 0, hence
below every positive epsilon); the ROUNDED reported values are
consistent only up to the rounding granularity: `|round(monthly)*12 -
round(annual)| ≤ 13/2` and `|round(annual)/365 - round(daily)| ≤
183/365`, and these bounds are attained up to ≈0.4 (see the
counterexample), so no sub-rounding epsilon holds after rounding. -/
theorem premium_arithmetic_consistency (mi age dep : ℚ) :
    suggested_monthly_premium mi age dep * 12 = suggested_annual_premium mi age dep ∧
    suggested_daily_premium mi age dep = suggested_annual_premium mi age dep / 365 ∧
    |(pyRound (suggested_monthly_premium mi age dep) : ℚ) * 12 -
        (pyRound (suggested_annual_premium mi age dep) : ℚ)| ≤ 13/2 ∧
    |(pyRound (suggested_annual_premium mi age dep) : ℚ) / 365 -
        (pyRound (suggested_daily_premium mi age dep) : ℚ)| ≤ 183/365 := by
  have hM : suggested_monthly_premium mi age dep =
      suggested_annual_premium mi age dep / 12 := rfl
  have hD : suggested_daily_premium mi age dep =
      suggested_annual_premium mi age dep / 365 := rfl
  refine ⟨by rw [hM]; ring, hD, ?_, ?_⟩
  · have h1 := pyRound_close (suggested_annual_premium mi age dep / 12)
    have h2 := pyRound_close (suggested_annual_premium mi age dep)
    rw [hM]
    rw [abs_le] at h1 h2 ⊢
    constructor <;> linarith [h1.1, h1.2, h2.1, h2.2]
  · have h2 := pyRound_close (suggested_annual_premium mi age dep)
    have h3 := pyRound_close (suggested_annual_premium mi age dep / 365)
    rw [hD]
    rw [abs_le] at h2 h3 ⊢
    constructor <;> linarith [h2.1, h2.2, h3.1, h3.2]

/-- Counterexample to C9 as stated: with `monthly_income = 0` and at
least one recommendation, the affordability computation divides by zero,
so `_enhance_recommendations` raises `ZeroDivisionError` (modelled
`none`) instead of clamping and producing a usable result (the caller's
`try/except` then returns the failure state, not recommendations). -/
theorem zero_income_enhancement_raises :
    enhance_recommendations zeroIncomeProfile [wDoc] = none := by
  rfl

/-- C9 amended: the enhancement path never raises for any PRESENT
non-zero `monthly_income` — in particular a negative income is accepted
as-is (neither clamped nor defaulted; the 50000 default applies only
when the field is absent) and a result list is still produced; but a
zero income makes the affordability division raise (see the
counterexample). -/
theorem nonzero_income_enhancement_total (u : UserProfile) (recs : List PolicyDoc)
    (h : u.monthly_income.getD 50000 ≠ 0) :
    (enhance_recommendations u recs).isSome = true := by
  unfold enhance_recommendations
  induction recs with
  | nil => rfl
  | cons r t ih =>
    have he : (enhanceOne (u.monthly_income.getD 50000) ((u.age.getD 35 : Int) : ℚ) u r).isSome
        = true := by
      unfold enhanceOne calculate_affordability_score
      simp only [if_neg h, if_neg (mul_ne_zero h (by norm_num : (12 : ℚ) ≠ 0))]
      rfl
    rcases Option.isSome_iff_exists.mp he with ⟨e, hee⟩
    rcases Option.isSome_iff_exists.mp ih with ⟨l, hl⟩
    show (enhanceLoop _ _ _ (r :: t)).isSome = true
    unfold enhanceLoop
    rw [hee, hl]
    rfl

/-- Witness for the amended C9: a negative income produces a result
without raising. -/
theorem nonzero_income_enhancement_total_w :
    (enhance_recommendations negIncomeProfile [wDoc]).isSome = true :=
  nonzero_income_enhancement_total negIncomeProfile [wDoc] (by norm_num [negIncomeProfile])

end LicAdvisor
